import Mathlib

/-!
# UAS_PEMPLAT: users / products CRUD backend with password login

A shallow embedding of `models/user.go`, `models/product.go` and
`handlers/handler.go`.

* The SQL store behind `*sql.DB` is an explicit state `DB`: the rows of the two
  tables, the two auto-increment counters, the store clock used for column
  defaults, an optional fault (the store reports this error for every
  statement) and a counter of the statements sent to it.
* `bcrypt.CompareHashAndPassword` and the float formatting of `encoding/json`
  are external libraries; they are fields of `Lib`, and every general theorem
  quantifies over `Lib`.
* A Go result `(v, err)` is a pair whose second component is `Option Error`
  (`none` is the `nil` error).
* A handler is a function from the store and the request data it reads (the
  `{id}` path variable, the outcome of decoding the JSON body) to the new store
  and the HTTP response it wrote.
-/

namespace UasPemplat

/-! ## Errors, time, floats -/

/-- Go `error` values that the code compares or prints. `ErrNoRows` is
`sql.ErrNoRows`, `ErrMismatchedHashAndPassword` is the bcrypt sentinel; every
other error (driver errors, the remaining bcrypt errors) is `other` with its
message. -/
inductive Error where
  | ErrNoRows
  | ErrMismatchedHashAndPassword
  | other (msg : String)
deriving DecidableEq, Repr

/-- Go `err.Error()`: the text that `%v` prints for the error. -/
def Error.text : Error → String
  | .ErrNoRows => "sql: no rows in result set"
  | .ErrMismatchedHashAndPassword =>
      "crypto/bcrypt: hashedPassword is not the hash of the given password"
  | .other msg => msg

/-- A `time.Time` read from the store, carried as its RFC 3339 text (the form in
which `encoding/json` prints it). The code never computes with times. -/
structure Time where
  rfc3339 : String
deriving DecidableEq, Repr

/-- A Go `float64`, carried as its IEEE-754 bit pattern. The code never computes
with prices: it stores them and reads them back. -/
structure Float64 where
  bits : Nat
deriving DecidableEq, Repr

/-- External library functions used by the code. -/
structure Lib where
  /-- Go `bcrypt.CompareHashAndPassword(hashedPassword, password)`: `none` is a
  `nil` error (the password matches). -/
  CompareHashAndPassword : String → String → Option Error
  /-- The JSON text `encoding/json` prints for a `float64`; `none` for the
  values it refuses (NaN, infinities). -/
  FormatFloat : Float64 → Option String

/-! ## Data model (`models/user.go`, `models/product.go`) -/

/-- Go `models.User`: a row of the `users` table. -/
structure User where
  UserID : Int
  Username : String
  Email : String
  PasswordHash : String
  RegistrationDate : Time
deriving DecidableEq, Repr

/-- Go `models.Product`: a row of the `products` table. -/
structure Product where
  ProductID : Int
  ProductName : String
  Description : String
  Price : Float64
  StockQuantity : Int
  CreatedAt : Time
deriving DecidableEq, Repr

/-- The store behind `*sql.DB`. -/
structure DB where
  users : List User
  products : List Product
  /-- Next value of the `user_id` auto-increment counter. -/
  nextUserID : Int
  /-- Next value of the `product_id` auto-increment counter. -/
  nextProductID : Int
  /-- The store clock: the default of `registration_date` and `created_at`. -/
  now : Time
  /-- When `some e`, the store answers every statement with the error `e`. -/
  fault : Option Error
  /-- The number of statements sent to the store so far. -/
  executed : Nat
deriving DecidableEq, Repr

/-- Sending one statement to the store. -/
def DB.tick (db : DB) : DB := { db with executed := db.executed + 1 }

/-! ## `models/user.go` -/

namespace models

/-- Go `models.CreateUser`: `INSERT INTO users (username, email, password_hash)
VALUES (?, ?, ?)`; the id and the registration date are assigned by the store.
Returns `(userID, nil)` or `(0, err)`. -/
def CreateUser (db : DB) (user : User) : DB × (Int × Option Error) :=
  match db.fault with
  | some err => (db.tick, (0, some err))
  | none =>
    let row : User :=
      { UserID := db.nextUserID, Username := user.Username, Email := user.Email,
        PasswordHash := user.PasswordHash, RegistrationDate := db.now }
    ({ db.tick with users := db.users ++ [row], nextUserID := db.nextUserID + 1 },
      (db.nextUserID, none))

/-- Go `models.GetUserByID`: `SELECT ... FROM users WHERE user_id = ?`, scanning
the first row; no row is `sql.ErrNoRows`. Returns `(user, nil)` or `(nil, err)`. -/
def GetUserByID (db : DB) (userID : Int) : DB × (Option User × Option Error) :=
  match db.fault with
  | some err => (db.tick, (none, some err))
  | none =>
    match db.users.find? (fun u => u.UserID = userID) with
    | none => (db.tick, (none, some .ErrNoRows))
    | some user => (db.tick, (some user, none))

/-- Go `models.GetUsers`: `SELECT ... FROM users`. Returns `(users, nil)` or
`(nil, err)`; `users` is the nil slice when the table is empty. -/
def GetUsers (db : DB) : DB × (List User × Option Error) :=
  match db.fault with
  | some err => (db.tick, ([], some err))
  | none => (db.tick, (db.users, none))

/-- Go `models.UpdateUser`: `UPDATE users SET username = ? WHERE user_id = ?`.
The statement result (rows affected) is discarded. -/
def UpdateUser (db : DB) (userID : Int) (newUsername : String) : DB × Option Error :=
  match db.fault with
  | some err => (db.tick, some err)
  | none =>
    ({ db.tick with
        users := db.users.map
          (fun u => if u.UserID = userID then { u with Username := newUsername } else u) },
      none)

/-- Go `models.DeleteUser`: `DELETE FROM users WHERE user_id = ?`. The statement
result (rows affected) is discarded. -/
def DeleteUser (db : DB) (userID : Int) : DB × Option Error :=
  match db.fault with
  | some err => (db.tick, some err)
  | none =>
    ({ db.tick with users := db.users.filter (fun u => ¬ u.UserID = userID) }, none)

/-- The query of `LoginUser`: `SELECT password_hash FROM users WHERE username = ?`
scanned into a string; no row is `sql.ErrNoRows`. -/
def queryPasswordHash (db : DB) (username : String) : DB × (String × Option Error) :=
  match db.fault with
  | some err => (db.tick, ("", some err))
  | none =>
    match db.users.find? (fun u => u.Username = username) with
    | none => (db.tick, ("", some .ErrNoRows))
    | some u => (db.tick, (u.PasswordHash, none))

/-- Go `models.LoginUser`. -/
def LoginUser (lib : Lib) (db : DB) (username password : String) :
    DB × (Bool × Option Error) :=
  match queryPasswordHash db username with
  | (db1, (_, some err)) => (db1, (false, some err))
  | (db1, (hashedPassword, none)) =>
    match lib.CompareHashAndPassword hashedPassword password with
    | none => (db1, (true, none))
    | some err =>
      if err = .ErrMismatchedHashAndPassword then (db1, (false, none))
      else (db1, (false, some err))

/-! ## `models/product.go` -/

/-- Go `models.CreateProduct`: `INSERT INTO products (product_name, description,
price, stock_quantity) VALUES (?, ?, ?, ?)`; the id and `created_at` are assigned
by the store. Returns `(productID, nil)` or `(0, err)`. -/
def CreateProduct (db : DB) (product : Product) : DB × (Int × Option Error) :=
  match db.fault with
  | some err => (db.tick, (0, some err))
  | none =>
    let row : Product :=
      { ProductID := db.nextProductID, ProductName := product.ProductName,
        Description := product.Description, Price := product.Price,
        StockQuantity := product.StockQuantity, CreatedAt := db.now }
    ({ db.tick with products := db.products ++ [row],
                    nextProductID := db.nextProductID + 1 },
      (db.nextProductID, none))

/-- Go `models.GetProductByID`: `SELECT ... FROM products WHERE product_id = ?`,
scanning the first row; no row is `sql.ErrNoRows`. -/
def GetProductByID (db : DB) (productID : Int) : DB × (Option Product × Option Error) :=
  match db.fault with
  | some err => (db.tick, (none, some err))
  | none =>
    match db.products.find? (fun p => p.ProductID = productID) with
    | none => (db.tick, (none, some .ErrNoRows))
    | some product => (db.tick, (some product, none))

/-- Go `models.GetProducts`: `SELECT ... FROM products`. -/
def GetProducts (db : DB) : DB × (List Product × Option Error) :=
  match db.fault with
  | some err => (db.tick, ([], some err))
  | none => (db.tick, (db.products, none))

/-- Go `models.UpdateProduct`: `UPDATE products SET product_name = ? WHERE
product_id = ?`. The statement result is discarded. -/
def UpdateProduct (db : DB) (productID : Int) (newProductName : String) :
    DB × Option Error :=
  match db.fault with
  | some err => (db.tick, some err)
  | none =>
    ({ db.tick with
        products := db.products.map
          (fun p => if p.ProductID = productID then { p with ProductName := newProductName }
                    else p) },
      none)

/-- Go `models.DeleteProduct`: `DELETE FROM products WHERE product_id = ?`. The
statement result is discarded. -/
def DeleteProduct (db : DB) (productID : Int) : DB × Option Error :=
  match db.fault with
  | some err => (db.tick, some err)
  | none =>
    ({ db.tick with products := db.products.filter (fun p => ¬ p.ProductID = productID) },
      none)

end models

/-! ## Library functions used by the handlers -/

/-- Value of a run of decimal digits appended to `n`; `none` at the first byte
that is not `0`..`9` (the digit loop of `strconv.Atoi` / `ParseUint`). -/
def digitsValue : List Char → Nat → Option Nat
  | [], n => some n
  | c :: cs, n =>
    if 48 ≤ c.toNat ∧ c.toNat ≤ 57 then digitsValue cs (n * 10 + (c.toNat - 48)) else none

/-- Go `strconv.Atoi` on a 64-bit platform; `none` is a non-nil error (syntax or
range). An optional leading sign, then at least one digit, nothing else. -/
def Atoi (s : String) : Option Int :=
  match s.data with
  | [] => none
  | c :: cs =>
    let ds := if c = '-' ∨ c = '+' then cs else c :: cs
    if ds = [] then none
    else
      match digitsValue ds 0 with
      | none => none
      | some n =>
        if c = '-' then (if n ≤ 2 ^ 63 then some (-(n : Int)) else none)
        else (if n < 2 ^ 63 then some (n : Int) else none)

/-- What a handler wrote to its `http.ResponseWriter`: the status code, the
headers it set itself, and the body. -/
structure Response where
  status : Nat
  headers : List (String × String)
  body : String
deriving DecidableEq, Repr

def StatusOK : Nat := 200
def StatusCreated : Nat := 201
def StatusBadRequest : Nat := 400
def StatusUnauthorized : Nat := 401
def StatusInternalServerError : Nat := 500
def StatusNotFound : Nat := 404

/-- Go `http.Error(w, error, code)`: plain-text content type, `nosniff`, the
status code, and the message followed by a newline. -/
def httpError (error : String) (code : Nat) : Response :=
  { status := code,
    headers := [("Content-Type", "text/plain; charset=utf-8"),
                ("X-Content-Type-Options", "nosniff")],
    body := error ++ "\n" }

/-- Lower-case hexadecimal digit. -/
def hexDigit (n : Nat) : Char := "0123456789abcdef".data.getD n '0'

/-- How `encoding/json` (with its default HTML escaping) writes one character
inside a string. -/
def escapeChar (c : Char) : List Char :=
  let b := c.toNat
  if b = 0x5c ∨ b = 0x22 then [Char.ofNat 0x5c, c]
  else if b = 0x08 then [Char.ofNat 0x5c, 'b']
  else if b = 0x0c then [Char.ofNat 0x5c, 'f']
  else if b = 0x0a then [Char.ofNat 0x5c, 'n']
  else if b = 0x0d then [Char.ofNat 0x5c, 'r']
  else if b = 0x09 then [Char.ofNat 0x5c, 't']
  else if b < 0x20 ∨ b = 0x26 ∨ b = 0x3c ∨ b = 0x3e then
    [Char.ofNat 0x5c, 'u', '0', '0', hexDigit (b / 16), hexDigit (b % 16)]
  else if b = 0x2028 then [Char.ofNat 0x5c, 'u', '2', '0', '2', '8']
  else if b = 0x2029 then [Char.ofNat 0x5c, 'u', '2', '0', '2', '9']
  else [c]

/-- The JSON text of a Go string: quoted, with `escapeChar` applied. -/
def jsonString (s : String) : String :=
  "\"" ++ String.mk (s.data.flatMap escapeChar) ++ "\""

/-- The JSON object `encoding/json` writes for a `models.User`, field by field in
declaration order under the names of the struct tags. -/
def encodeUser (u : User) : String :=
  "\x7b\"user_id\":" ++ toString u.UserID ++
  ",\"username\":" ++ jsonString u.Username ++
  ",\"email\":" ++ jsonString u.Email ++
  ",\"password_hash\":" ++ jsonString u.PasswordHash ++
  ",\"registration_date\":\"" ++ u.RegistrationDate.rfc3339 ++ "\"\x7d"

/-- The JSON object for a `models.Product`; `none` when the price is a value
`encoding/json` refuses. -/
def encodeProduct (lib : Lib) (p : Product) : Option String :=
  match lib.FormatFloat p.Price with
  | none => none
  | some price =>
    some ("\x7b\"product_id\":" ++ toString p.ProductID ++
      ",\"product_name\":" ++ jsonString p.ProductName ++
      ",\"description\":" ++ jsonString p.Description ++
      ",\"price\":" ++ price ++
      ",\"stock_quantity\":" ++ toString p.StockQuantity ++
      ",\"created_at\":\"" ++ p.CreatedAt.rfc3339 ++ "\"\x7d")

/-- The JSON text of a slice: `null` for the nil slice (what `GetUsers` returns
for no rows), otherwise the elements between brackets, separated by commas. -/
def encodeArray (items : List String) : String :=
  if items = [] then "null" else "[" ++ ",".intercalate items ++ "]"

/-- All of `xs` when every element is `some`, else `none`. -/
def allSome : List (Option String) → Option (List String)
  | [] => some []
  | none :: _ => none
  | some x :: xs => (allSome xs).map (x :: ·)

/-- Go `json.NewEncoder(w).Encode(v)` on a fresh writer with no status written:
status 200, the JSON text and a newline. When marshalling fails nothing is
written and the handler ignores the error: the response is an empty 200. -/
def encodeResponse (status : Nat) (json : Option String) : Response :=
  match json with
  | none => { status := status, headers := [], body := "" }
  | some text => { status := status, headers := [], body := text ++ "\n" }

/-! ## `handlers/handler.go`

Each handler takes the store `h.Db`, the `{id}` path variable as the router
captured it (`mux.Vars(r)["id"]`), and the outcome of
`json.NewDecoder(r.Body).Decode(&v)`: `none` when `Decode` returned an error,
`some v` with the decoded struct otherwise. -/

/-- The anonymous struct `loginRequest` of `Handler.Login`. -/
structure LoginRequest where
  Username : String
  Password : String
deriving DecidableEq, Repr

/-- Go `Handler.CreateUser`. -/
def Handler.CreateUser (db : DB) (body : Option User) : DB × Response :=
  match body with
  | none => (db, httpError "Invalid request body" StatusBadRequest)
  | some user =>
    match models.CreateUser db user with
    | (db1, (_, some err)) =>
      (db1, httpError ("Error creating user: " ++ err.text) StatusInternalServerError)
    | (db1, (userID, none)) =>
      (db1, encodeResponse StatusCreated
        (some ("\x7b\"user_id\":" ++ toString userID ++ "\x7d")))

/-- Go `Handler.GetUserByID`. -/
def Handler.GetUserByID (db : DB) (id : String) : DB × Response :=
  match Atoi id with
  | none => (db, httpError "Invalid user ID" StatusBadRequest)
  | some userID =>
    match models.GetUserByID db userID with
    | (db1, (_, some err)) =>
      (db1, httpError ("Error retrieving user: " ++ err.text) StatusInternalServerError)
    | (db1, (none, none)) => (db1, encodeResponse StatusOK (some "null"))
    | (db1, (some user, none)) => (db1, encodeResponse StatusOK (some (encodeUser user)))

/-- Go `Handler.GetUsers`. -/
def Handler.GetUsers (db : DB) : DB × Response :=
  match models.GetUsers db with
  | (db1, (_, some err)) =>
    (db1, httpError ("Error retrieving users: " ++ err.text) StatusInternalServerError)
  | (db1, (users, none)) =>
    (db1, encodeResponse StatusOK (some (encodeArray (users.map encodeUser))))

/-- Go `Handler.UpdateUser`. -/
def Handler.UpdateUser (db : DB) (id : String) (body : Option User) : DB × Response :=
  match Atoi id with
  | none => (db, httpError "Invalid user ID" StatusBadRequest)
  | some userID =>
    match body with
    | none => (db, httpError "Invalid request body" StatusBadRequest)
    | some user =>
      match models.UpdateUser db userID user.Username with
      | (db1, some err) =>
        (db1, httpError ("Error updating user: " ++ err.text) StatusInternalServerError)
      | (db1, none) => (db1, { status := StatusOK, headers := [], body := "" })

/-- Go `Handler.DeleteUser`. -/
def Handler.DeleteUser (db : DB) (id : String) : DB × Response :=
  match Atoi id with
  | none => (db, httpError "Invalid user ID" StatusBadRequest)
  | some userID =>
    match models.DeleteUser db userID with
    | (db1, some err) =>
      (db1, httpError ("Error deleting user: " ++ err.text) StatusInternalServerError)
    | (db1, none) => (db1, { status := StatusOK, headers := [], body := "" })

/-- Go `Handler.Login`. -/
def Handler.Login (lib : Lib) (db : DB) (body : Option LoginRequest) : DB × Response :=
  match body with
  | none => (db, httpError "Invalid request body" StatusBadRequest)
  | some loginRequest =>
    match models.LoginUser lib db loginRequest.Username loginRequest.Password with
    | (db1, (_, some err)) =>
      (db1, httpError ("\x7b\"error\": \"Login failed: " ++ err.text ++ "\"\x7d")
        StatusUnauthorized)
    | (db1, (true, none)) =>
      (db1, { status := StatusOK, headers := [("Content-Type", "application/json")],
              body := "\x7b\"success\": true, \"message\": \"Login successful\"\x7d\n" })
    | (db1, (false, none)) =>
      (db1, { status := StatusUnauthorized,
              headers := [("Content-Type", "application/json")],
              body := "\x7b\"success\": false, \"error\": \"Invalid username or password\"\x7d\n" })

/-- Go `Handler.CreateProduct`. -/
def Handler.CreateProduct (db : DB) (body : Option Product) : DB × Response :=
  match body with
  | none => (db, httpError "Invalid request body" StatusBadRequest)
  | some product =>
    match models.CreateProduct db product with
    | (db1, (_, some err)) =>
      (db1, httpError ("Error creating product: " ++ err.text) StatusInternalServerError)
    | (db1, (productID, none)) =>
      (db1, encodeResponse StatusCreated
        (some ("\x7b\"product_id\":" ++ toString productID ++ "\x7d")))

/-- Go `Handler.GetProductByID`. -/
def Handler.GetProductByID (lib : Lib) (db : DB) (id : String) : DB × Response :=
  match Atoi id with
  | none => (db, httpError "Invalid product ID" StatusBadRequest)
  | some productID =>
    match models.GetProductByID db productID with
    | (db1, (_, some err)) =>
      (db1, httpError ("Error retrieving product: " ++ err.text) StatusInternalServerError)
    | (db1, (none, none)) => (db1, encodeResponse StatusOK (some "null"))
    | (db1, (some product, none)) =>
      (db1, encodeResponse StatusOK (encodeProduct lib product))

/-- Go `Handler.GetProducts`. -/
def Handler.GetProducts (lib : Lib) (db : DB) : DB × Response :=
  match models.GetProducts db with
  | (db1, (_, some err)) =>
    (db1, httpError ("Error retrieving products: " ++ err.text) StatusInternalServerError)
  | (db1, (products, none)) =>
    (db1, encodeResponse StatusOK
      ((allSome (products.map (encodeProduct lib))).map encodeArray))

/-- Go `Handler.UpdateProduct`. -/
def Handler.UpdateProduct (db : DB) (id : String) (body : Option Product) : DB × Response :=
  match Atoi id with
  | none => (db, httpError "Invalid product ID" StatusBadRequest)
  | some productID =>
    match body with
    | none => (db, httpError "Invalid request body" StatusBadRequest)
    | some product =>
      match models.UpdateProduct db productID product.ProductName with
      | (db1, some err) =>
        (db1, httpError ("Error updating product: " ++ err.text) StatusInternalServerError)
      | (db1, none) => (db1, { status := StatusOK, headers := [], body := "" })

/-- Go `Handler.DeleteProduct`. -/
def Handler.DeleteProduct (db : DB) (id : String) : DB × Response :=
  match Atoi id with
  | none => (db, httpError "Invalid product ID" StatusBadRequest)
  | some productID =>
    match models.DeleteProduct db productID with
    | (db1, some err) =>
      (db1, httpError ("Error deleting product: " ++ err.text) StatusInternalServerError)
    | (db1, none) => (db1, { status := StatusOK, headers := [], body := "" })

/-! ## A concrete library and concrete stores, for evaluating the model -/

/-- Stand-in for the 31-character digest at the end of a bcrypt hash: the
password padded with dots and cut at 31 characters. It is not Blowfish; it only
gives the examples a hash that the stand-in comparison accepts. -/
def sampleDigest (password : String) : List Char :=
  (password.data ++ List.replicate 31 '.').take 31

/-- Stand-in for `bcrypt.CompareHashAndPassword`. Like bcrypt it refuses a stored
hash shorter than 59 bytes (`ErrHashTooShort`) or not starting with `$`
(`InvalidHashPrefixError`) with an error other than the mismatch sentinel; on the
remaining hashes it compares the digest after the 29-character header. -/
def sampleCompare (hashedPassword password : String) : Option Error :=
  if hashedPassword.utf8ByteSize < 59 then
    some (.other "crypto/bcrypt: hashedSecret too short to be a bcrypted password")
  else if hashedPassword.data.head? ≠ some '$' then
    some (.other "crypto/bcrypt: bcrypt hashes must start with '$'")
  else if hashedPassword.data.drop 29 = sampleDigest password then none
  else some .ErrMismatchedHashAndPassword

/-- Stand-in for the float formatting of `encoding/json` on the two prices the
examples use (0 and 9.99). -/
def sampleFormatFloat (f : Float64) : Option String :=
  if f.bits = 0 then some "0"
  else if f.bits = 0x4023FAE147AE147B then some "9.99"
  else none

/-- The library instance used by the closed examples. -/
def sampleLib : Lib :=
  { CompareHashAndPassword := sampleCompare, FormatFloat := sampleFormatFloat }

/-- A stored hash that `sampleCompare` accepts for the password `secret`. -/
def secretHash : String := "$2a$10$abcdefghijklmnopqrstuusecret........................."

/-- A store with no rows and no fault. -/
def emptyDB : DB :=
  { users := [], products := [], nextUserID := 1, nextProductID := 1,
    now := ⟨"2024-01-15T10:00:00Z"⟩, fault := none, executed := 0 }

/-- A store holding one user, `alice`, whose stored hash is `secretHash`. -/
def aliceDB : DB :=
  { emptyDB with
    users := [{ UserID := 1, Username := "alice", Email := "alice@example.com",
                PasswordHash := secretHash, RegistrationDate := ⟨"2024-01-01T00:00:00Z"⟩ }],
    nextUserID := 2 }

/-- The store `aliceDB` while unreachable: every statement is answered with a
connection error. -/
def downDB : DB :=
  { aliceDB with fault := some (.other "dial tcp 127.0.0.1:3306: connect: connection refused") }

/-- The product of the specification's round-trip example: `Widget`, price 9.99
(bit pattern `0x4023FAE147AE147B`), stock 10; the caller left the id zero and
supplied a creation time of its own. -/
def widget : Product :=
  { ProductID := 0, ProductName := "Widget", Description := "", Price := ⟨0x4023FAE147AE147B⟩,
    StockQuantity := 10, CreatedAt := ⟨"1999-12-31T23:59:59Z"⟩ }

/-- The store `aliceDB` with a second user, `carol`, whose stored hash is the
corrupted text `corrupt`. -/
def carolDB : DB :=
  { aliceDB with
    users := aliceDB.users ++
      [{ UserID := 2, Username := "carol", Email := "carol@example.com",
         PasswordHash := "corrupt", RegistrationDate := ⟨"2024-01-02T00:00:00Z"⟩ }],
    nextUserID := 3 }

/-! ## Spec-side vocabulary -/

/-- The store `carolDB` with two products: `Widget` under id 1 and `Gadget`
under id 2. -/
def shopDB : DB :=
  { carolDB with
    products :=
      [{ ProductID := 1, ProductName := "Widget", Description := "A widget",
         Price := ⟨0x4023FAE147AE147B⟩, StockQuantity := 10,
         CreatedAt := ⟨"2024-01-03T00:00:00Z"⟩ },
       { ProductID := 2, ProductName := "Gadget", Description := "A gadget",
         Price := ⟨0⟩, StockQuantity := 3, CreatedAt := ⟨"2024-01-04T00:00:00Z"⟩ }],
    nextProductID := 3 }

/-- The text with which a login body that reports `success = true` begins. -/
def successMarker : String := "\x7b\"success\": true"

/-- A login response body reports success when it is a JSON object whose first
member is `"success": true`. -/
def reportsSuccess (body : String) : Bool :=
  successMarker.data.isPrefixOf body.data

/-- A decimal integer in the words of the specification: an optional sign
followed by one or more of the digits `0`..`9`, and nothing else. -/
def isDecimalInteger (s : String) : Bool :=
  match s.data with
  | [] => false
  | c :: cs =>
    let digits := if c = '+' ∨ c = '-' then cs else c :: cs
    !digits.isEmpty && digits.all (fun d => decide (d ∈ "0123456789".data))

/-- A handler turned the request down before reaching the store: the store it
returns is the one it was given, statement counter included, and the status is
400. -/
def rejectedUntouched (db : DB) (r : DB × Response) : Prop :=
  r.1 = db ∧ r.2.status = StatusBadRequest

/-- The frame of `UPDATE users SET username = n WHERE user_id = i`: the rows of
the new table are the rows of the old one, in order and in number; each keeps its
id, email, password hash and registration date; a row with id `i` has username
`n`; every other row is unchanged. -/
def UsersRenamed (i : Int) (n : String) (old new : List User) : Prop :=
  List.Forall₂
    (fun o r => r.UserID = o.UserID ∧ r.Email = o.Email ∧ r.PasswordHash = o.PasswordHash ∧
      r.RegistrationDate = o.RegistrationDate ∧ (o.UserID = i → r.Username = n) ∧
      (o.UserID ≠ i → r = o))
    old new

/-- The frame of `UPDATE products SET product_name = n WHERE product_id = i`. -/
def ProductsRenamed (i : Int) (n : String) (old new : List Product) : Prop :=
  List.Forall₂
    (fun o r => r.ProductID = o.ProductID ∧ r.Description = o.Description ∧
      r.Price = o.Price ∧ r.StockQuantity = o.StockQuantity ∧ r.CreatedAt = o.CreatedAt ∧
      (o.ProductID = i → r.ProductName = n) ∧ (o.ProductID ≠ i → r = o))
    old new

/-- The text `sub` occurs in `body`. -/
def containsText (body sub : String) : Prop :=
  sub.data <:+: body.data

/-- No character of `s` is rewritten by the JSON string encoder. -/
def needsNoEscape (s : String) : Bool :=
  s.data.all (fun c => escapeChar c == [c])

/-- The response of `Handler.Login` to a wrong password. -/
def mismatchResponse : Response :=
  { status := StatusUnauthorized, headers := [("Content-Type", "application/json")],
    body := "\x7b\"success\": false, \"error\": \"Invalid username or password\"\x7d\n" }

/-- The response of `Handler.Login` to an accepted password. -/
def successResponse : Response :=
  { status := StatusOK, headers := [("Content-Type", "application/json")],
    body := "\x7b\"success\": true, \"message\": \"Login successful\"\x7d\n" }

/-- The response of `Handler.Login` when `LoginUser` returned the error `err`. -/
def loginErrorResponse (err : Error) : Response :=
  httpError ("\x7b\"error\": \"Login failed: " ++ err.text ++ "\"\x7d") StatusUnauthorized

/-! ## Login: helper lemmas -/

/-- The result of `LoginUser` once the lookup has returned the hash `h`. -/
theorem LoginUser_of_lookup (lib : Lib) (db : DB) (username p h : String)
    (hl : (models.queryPasswordHash db username).2 = (h, none)) :
    (models.LoginUser lib db username p).2 =
      match lib.CompareHashAndPassword h p with
      | none => (true, none)
      | some err =>
        if err = .ErrMismatchedHashAndPassword then (false, none) else (false, some err) := by
  unfold models.LoginUser
  rcases hq : models.queryPasswordHash db username with ⟨db1, hp, e⟩
  rw [hq] at hl
  simp only [Prod.mk.injEq] at hl
  obtain ⟨rfl, rfl⟩ := hl
  simp only
  cases lib.CompareHashAndPassword hp p with
  | none => rfl
  | some err => by_cases he : err = .ErrMismatchedHashAndPassword <;> simp [he]

/-- The result of `LoginUser` when the lookup failed with `err`. -/
theorem LoginUser_of_lookup_error (lib : Lib) (db : DB) (username p hp : String) (err : Error)
    (hl : (models.queryPasswordHash db username).2 = (hp, some err)) :
    (models.LoginUser lib db username p).2 = (false, some err) := by
  unfold models.LoginUser
  rcases hq : models.queryPasswordHash db username with ⟨db1, hp1, e⟩
  rw [hq] at hl
  simp only [Prod.mk.injEq] at hl
  obtain ⟨rfl, rfl⟩ := hl
  rfl

/-- The response of `Handler.Login` is decided by the result of `LoginUser`. -/
theorem Login_response (lib : Lib) (db : DB) (req : LoginRequest) :
    (Handler.Login lib db (some req)).2 =
      match (models.LoginUser lib db req.Username req.Password).2 with
      | (_, some err) => loginErrorResponse err
      | (true, none) => successResponse
      | (false, none) => mismatchResponse := by
  unfold Handler.Login
  rcases hq : models.LoginUser lib db req.Username req.Password with ⟨db1, ok, e⟩
  simp only [hq]
  cases e <;> cases ok <;> rfl

/-- The lookup in terms of the rows of the store. -/
theorem queryPasswordHash_eq_ok (db : DB) (username h : String) :
    (models.queryPasswordHash db username).2 = (h, none) ↔
      db.fault = none ∧
        ∃ u, db.users.find? (fun u => u.Username = username) = some u ∧ u.PasswordHash = h := by
  unfold models.queryPasswordHash
  cases hf : db.fault with
  | some e => simp
  | none =>
    cases hu : db.users.find? (fun u => u.Username = username) with
    | none => simp
    | some u => simp

/-- An error body of `Handler.Login` never reports success. -/
theorem loginErrorResponse_not_success (err : Error) :
    reportsSuccess (loginErrorResponse err).body = false := by
  simp [reportsSuccess, loginErrorResponse, httpError, successMarker, String.data_append,
    List.isPrefixOf]

/-! ## Claims on login -/

/-- C1: when the lookup for the username returns the stored hash `h`, `LoginUser`
returns exactly one of three results, decided by the comparison primitive on
`(h, p)`: `(true, nil)` if and only if the primitive accepts (Match),
`(false, nil)` if and only if it reports the mismatch sentinel (Mismatch), and
`(false, err)` with a non-nil `err` if and only if it reports any other error
(Malformed). -/
theorem LoginUser_three_outcomes (lib : Lib) (db : DB) (username p h : String)
    (hl : (models.queryPasswordHash db username).2 = (h, none)) :
    ((models.LoginUser lib db username p).2 = (true, none) ↔
        lib.CompareHashAndPassword h p = none) ∧
    ((models.LoginUser lib db username p).2 = (false, none) ↔
        lib.CompareHashAndPassword h p = some .ErrMismatchedHashAndPassword) ∧
    (((models.LoginUser lib db username p).2.1 = false ∧
        (models.LoginUser lib db username p).2.2 ≠ none) ↔
        ∃ e, lib.CompareHashAndPassword h p = some e ∧ e ≠ .ErrMismatchedHashAndPassword) ∧
    ((models.LoginUser lib db username p).2 = (true, none) ∨
      (models.LoginUser lib db username p).2 = (false, none) ∨
      ((models.LoginUser lib db username p).2.1 = false ∧
        (models.LoginUser lib db username p).2.2 ≠ none)) := by
  rw [LoginUser_of_lookup lib db username p h hl]
  cases hc : lib.CompareHashAndPassword h p with
  | none => simp
  | some err =>
    by_cases he : err = .ErrMismatchedHashAndPassword
    · simp [he]
    · simp [he]

/-- C1 at the store `aliceDB`: the lookup for `alice` returns `secretHash`. -/
theorem LoginUser_three_outcomes_witness :
    (models.queryPasswordHash aliceDB "alice").2 = (secretHash, none) ∧
    ((models.LoginUser sampleLib aliceDB "alice" "secret").2 = (true, none) ↔
        sampleLib.CompareHashAndPassword secretHash "secret" = none) :=
  ⟨by decide,
    (LoginUser_three_outcomes sampleLib aliceDB "alice" "secret" secretHash (by decide)).1⟩

/-- C2, evaluated: on `aliceDB` a wrong password for the existing user `alice`
and a login for the unknown user `bob` are both answered 401, but the first is
the JSON document `Invalid username or password` and the second is a plain-text
error carrying `sql: no rows in result set`; the two responses differ in content
type and in body. -/
theorem Login_unknown_user_distinguishable :
    (Handler.Login sampleLib aliceDB (some ⟨"alice", "wrong"⟩)).2 =
      { status := 401, headers := [("Content-Type", "application/json")],
        body := "\x7b\"success\": false, \"error\": \"Invalid username or password\"\x7d\n" } ∧
    (Handler.Login sampleLib aliceDB (some ⟨"bob", "wrong"⟩)).2 =
      { status := 401,
        headers := [("Content-Type", "text/plain; charset=utf-8"),
                    ("X-Content-Type-Options", "nosniff")],
        body := "\x7b\"error\": \"Login failed: sql: no rows in result set\"\x7d\n" } ∧
    (Handler.Login sampleLib aliceDB (some ⟨"alice", "wrong"⟩)).2 ≠
      (Handler.Login sampleLib aliceDB (some ⟨"bob", "wrong"⟩)).2 := by
  decide

/-- C4: for a login request whose body decodes, the response is 200 with the body
reporting `success = true` exactly when the store answers the lookup, the
username has a row, and the comparison primitive accepts the submitted password
against that row's hash; in every other case the status is 401 and the body does
not report `success = true`. -/
theorem Login_success_iff (lib : Lib) (db : DB) (req : LoginRequest) :
    (((Handler.Login lib db (some req)).2.status = StatusOK ∧
        reportsSuccess (Handler.Login lib db (some req)).2.body = true) ↔
      (db.fault = none ∧
        ∃ u, db.users.find? (fun u => u.Username = req.Username) = some u ∧
          lib.CompareHashAndPassword u.PasswordHash req.Password = none)) ∧
    (((Handler.Login lib db (some req)).2.status = StatusOK ∧
        reportsSuccess (Handler.Login lib db (some req)).2.body = true) ∨
      ((Handler.Login lib db (some req)).2.status = StatusUnauthorized ∧
        reportsSuccess (Handler.Login lib db (some req)).2.body = false)) := by
  rw [Login_response]
  rcases hq : (models.queryPasswordHash db req.Username).2 with ⟨h, e⟩
  cases e with
  | some err =>
    rw [LoginUser_of_lookup_error lib db req.Username req.Password h err hq]
    have hno : ¬ (db.fault = none ∧
        ∃ u, db.users.find? (fun u => u.Username = req.Username) = some u ∧
          lib.CompareHashAndPassword u.PasswordHash req.Password = none) := by
      rintro ⟨hf, u, hu, -⟩
      have := (queryPasswordHash_eq_ok db req.Username u.PasswordHash).2 ⟨hf, u, hu, rfl⟩
      rw [hq] at this
      simp at this
    simp only [loginErrorResponse_not_success, hno]
    simp [loginErrorResponse, httpError, StatusOK, StatusUnauthorized]
  | none =>
    rw [LoginUser_of_lookup lib db req.Username req.Password h hq]
    obtain ⟨hf, u, hu, rfl⟩ := (queryPasswordHash_eq_ok db req.Username h).1 hq
    cases hc : lib.CompareHashAndPassword u.PasswordHash req.Password with
    | none =>
      simp only [hf, hu, true_and]
      refine ⟨⟨fun _ => ⟨u, rfl, hc⟩, fun _ => by decide⟩, Or.inl (by decide)⟩
    | some err =>
      have hno : ¬ (db.fault = none ∧
          ∃ u, db.users.find? (fun u => u.Username = req.Username) = some u ∧
            lib.CompareHashAndPassword u.PasswordHash req.Password = none) := by
        rintro ⟨-, u1, hu1, hc1⟩
        rw [hu] at hu1
        cases hu1
        rw [hc] at hc1
        cases hc1
      by_cases he : err = .ErrMismatchedHashAndPassword
      · simp only [he, hno, if_true]
        decide
      · simp only [he, hno, if_false, loginErrorResponse_not_success]
        simp [loginErrorResponse, httpError, StatusOK, StatusUnauthorized]

/-- C5, refuted as stated: on `carolDB` the stored hash of `carol` is malformed
for the comparison primitive (an error other than the mismatch sentinel), and the
Login handler answers 401, not 500: the same status it gives `alice` for a wrong
password. -/
theorem malformed_hash_answered_401 :
    (∃ e, sampleLib.CompareHashAndPassword "corrupt" "pw" = some e ∧
      e ≠ .ErrMismatchedHashAndPassword) ∧
    (models.queryPasswordHash carolDB "carol").2 = ("corrupt", none) ∧
    (Handler.Login sampleLib carolDB (some ⟨"carol", "pw"⟩)).2.status = StatusUnauthorized ∧
    (Handler.Login sampleLib carolDB (some ⟨"carol", "pw"⟩)).2.status ≠
      StatusInternalServerError ∧
    (Handler.Login sampleLib carolDB (some ⟨"alice", "wrong"⟩)).2 = mismatchResponse ∧
    (Handler.Login sampleLib carolDB (some ⟨"carol", "pw"⟩)).2.status =
      (Handler.Login sampleLib carolDB (some ⟨"alice", "wrong"⟩)).2.status := by
  refine ⟨⟨_, rfl, by decide⟩, ?_, ?_, ?_, ?_, ?_⟩ <;> decide

/-- C5 as amended: when the stored hash `h` of an existing username is malformed
(the primitive reports an error `e` other than the mismatch sentinel), the login
operation surfaces this as an error distinguished from a wrong password:
`LoginUser` returns `(false, e)` with `e` non-nil, where a mismatch returns
`(false, nil)`, and the response of the Login handler is not the response it
gives for a mismatch. Its status, however, is 401 Unauthorized, the status of a
mismatch too, and not the internal-error status 500. -/
theorem Login_malformed_hash_response (lib : Lib) (db : DB) (req : LoginRequest)
    (h : String) (e : Error)
    (hl : (models.queryPasswordHash db req.Username).2 = (h, none))
    (hc : lib.CompareHashAndPassword h req.Password = some e)
    (he : e ≠ .ErrMismatchedHashAndPassword) :
    (models.LoginUser lib db req.Username req.Password).2 = (false, some e) ∧
    (models.LoginUser lib db req.Username req.Password).2 ≠ (false, none) ∧
    (Handler.Login lib db (some req)).2 = loginErrorResponse e ∧
    (Handler.Login lib db (some req)).2.status = StatusUnauthorized ∧
    (Handler.Login lib db (some req)).2.status = mismatchResponse.status ∧
    (Handler.Login lib db (some req)).2.status ≠ StatusInternalServerError ∧
    (Handler.Login lib db (some req)).2 ≠ mismatchResponse := by
  have hr : (models.LoginUser lib db req.Username req.Password).2 = (false, some e) := by
    rw [LoginUser_of_lookup lib db req.Username req.Password h hl, hc]
    simp [he]
  have hresp : (Handler.Login lib db (some req)).2 = loginErrorResponse e := by
    rw [Login_response, hr]
  refine ⟨hr, ?_, hresp, ?_, ?_, ?_, ?_⟩
  · rw [hr]
    simp
  · rw [hresp]; rfl
  · rw [hresp]; rfl
  · rw [hresp]
    simp [loginErrorResponse, httpError, StatusUnauthorized, StatusInternalServerError]
  · rw [hresp]
    intro hh
    have := congrArg Response.headers hh
    simp [loginErrorResponse, httpError, mismatchResponse] at this

/-- C5 as amended, at `carolDB` and the malformed stored hash of `carol`. -/
theorem Login_malformed_hash_response_witness :
    (models.LoginUser sampleLib carolDB "carol" "pw").2 ≠ (false, none) ∧
    (Handler.Login sampleLib carolDB (some ⟨"carol", "pw"⟩)).2.status = StatusUnauthorized ∧
    (Handler.Login sampleLib carolDB (some ⟨"carol", "pw"⟩)).2.status ≠
      StatusInternalServerError ∧
    (Handler.Login sampleLib carolDB (some ⟨"carol", "pw"⟩)).2 ≠ mismatchResponse :=
  have t := Login_malformed_hash_response sampleLib carolDB ⟨"carol", "pw"⟩ "corrupt"
    (.other "crypto/bcrypt: hashedSecret too short to be a bcrypted password")
    (by decide) (by decide) (by decide)
  ⟨t.2.1, t.2.2.2.1, t.2.2.2.2.2.1, t.2.2.2.2.2.2⟩

/-! ## Claims on the create-user path -/

/-- A successful `Handler.CreateUser` appended the decoded fields as a new row. -/
theorem Handler_CreateUser_created (db : DB) (user : User) (db1 : DB) (resp : Response)
    (hc : Handler.CreateUser db (some user) = (db1, resp))
    (hs : resp.status = StatusCreated) :
    db.fault = none ∧ db1.fault = none ∧
    db1.users = db.users ++
      [{ UserID := db.nextUserID, Username := user.Username, Email := user.Email,
         PasswordHash := user.PasswordHash, RegistrationDate := db.now }] := by
  unfold Handler.CreateUser models.CreateUser at hc
  cases hf : db.fault with
  | some e =>
    simp only [hf, Prod.mk.injEq] at hc
    obtain ⟨-, rfl⟩ := hc
    simp [httpError, StatusInternalServerError, StatusCreated] at hs
  | none =>
    simp only [hf, Prod.mk.injEq] at hc
    obtain ⟨rfl, -⟩ := hc
    simp [DB.tick, hf]

/-- C3, refuted as stated: creating `alice` with the password `secret` through
`Handler.CreateUser` on the empty store is answered 201, yet the following
`LoginUser` with the same pair returns `(false, err)` and the Login handler
answers 401: the stored value is the supplied text itself, which is not a hash
the comparison accepts. The same holds when the decoded body carries no
`password_hash` at all (a `password` member is not a field of `models.User`). -/
theorem plaintext_password_login_rejected :
    (Handler.CreateUser emptyDB
        (some ⟨0, "alice", "alice@example.com", "secret", ⟨""⟩⟩)).2.status = StatusCreated ∧
    (models.LoginUser sampleLib
        (Handler.CreateUser emptyDB
          (some ⟨0, "alice", "alice@example.com", "secret", ⟨""⟩⟩)).1 "alice" "secret").2 =
      (false, some (.other "crypto/bcrypt: hashedSecret too short to be a bcrypted password")) ∧
    (Handler.Login sampleLib
        (Handler.CreateUser emptyDB
          (some ⟨0, "alice", "alice@example.com", "secret", ⟨""⟩⟩)).1
        (some ⟨"alice", "secret"⟩)).2.status = StatusUnauthorized ∧
    (Handler.Login sampleLib
        (Handler.CreateUser emptyDB (some ⟨0, "alice", "alice@example.com", "", ⟨""⟩⟩)).1
        (some ⟨"alice", "secret"⟩)).2.status = StatusUnauthorized := by
  decide

/-- C3 as amended: if `Handler.CreateUser` answers 201 for a decoded body with
username `u` and `password_hash` field `h`, on a store with no user named `u`,
then the new store holds `h` verbatim as the stored hash of `u` (no hashing takes
place), and a following `LoginUser(u, p)` returns `(true, nil)`, and the Login
handler answers 200, exactly when the comparison primitive accepts `(h, p)`. -/
theorem CreateUser_then_Login (lib : Lib) (db : DB) (user : User) (p : String)
    (db1 : DB) (resp : Response)
    (hnew : ∀ u ∈ db.users, u.Username ≠ user.Username)
    (hc : Handler.CreateUser db (some user) = (db1, resp))
    (hs : resp.status = StatusCreated) :
    (models.queryPasswordHash db1 user.Username).2 = (user.PasswordHash, none) ∧
    ((models.LoginUser lib db1 user.Username p).2 = (true, none) ↔
      lib.CompareHashAndPassword user.PasswordHash p = none) ∧
    ((Handler.Login lib db1 (some ⟨user.Username, p⟩)).2.status = StatusOK ↔
      lib.CompareHashAndPassword user.PasswordHash p = none) := by
  obtain ⟨-, hf1, hu1⟩ := Handler_CreateUser_created db user db1 resp hc hs
  have hfind : db1.users.find? (fun u => u.Username = user.Username) =
      some { UserID := db.nextUserID, Username := user.Username, Email := user.Email,
             PasswordHash := user.PasswordHash, RegistrationDate := db.now } := by
    rw [hu1, List.find?_append]
    have hnone : db.users.find? (fun u => u.Username = user.Username) = none := by
      rw [List.find?_eq_none]
      intro u hu
      simpa using hnew u hu
    rw [hnone]
    simp
  have hl : (models.queryPasswordHash db1 user.Username).2 = (user.PasswordHash, none) :=
    (queryPasswordHash_eq_ok db1 user.Username user.PasswordHash).2 ⟨hf1, _, hfind, rfl⟩
  have hr := LoginUser_of_lookup lib db1 user.Username p user.PasswordHash hl
  refine ⟨hl, ?_, ?_⟩
  · rw [hr]
    cases lib.CompareHashAndPassword user.PasswordHash p with
    | none => simp
    | some err => by_cases he : err = .ErrMismatchedHashAndPassword <;> simp [he]
  · rw [Login_response]
    simp only []
    rw [hr]
    cases lib.CompareHashAndPassword user.PasswordHash p with
    | none => simp [successResponse]
    | some err =>
      by_cases he : err = .ErrMismatchedHashAndPassword <;>
        simp [he, mismatchResponse, loginErrorResponse, httpError, StatusOK, StatusUnauthorized]

/-- C3 as amended, at the empty store: `alice` created with the `password_hash`
field `secretHash` logs in with the password that hash accepts. -/
theorem CreateUser_then_Login_witness :
    (Handler.Login sampleLib
        (Handler.CreateUser emptyDB
          (some ⟨0, "alice", "alice@example.com", secretHash, ⟨""⟩⟩)).1
        (some ⟨"alice", "secret"⟩)).2.status = StatusOK :=
  (CreateUser_then_Login sampleLib emptyDB ⟨0, "alice", "alice@example.com", secretHash, ⟨""⟩⟩
    "secret" _ _ (by decide) rfl (by decide)).2.2.2 (by decide)

/-! ## Claims on delete -/

/-- C6, refuted as stated: on `aliceDB` no user and no product has id 7, yet
`DeleteUser` and `DeleteProduct` return a nil error for it and both handlers
answer 200. -/
theorem missing_id_delete_returns_ok :
    (∀ u ∈ aliceDB.users, u.UserID ≠ 7) ∧ (∀ p ∈ aliceDB.products, p.ProductID ≠ 7) ∧
    (models.DeleteUser aliceDB 7).2 = none ∧
    (Handler.DeleteUser aliceDB "7").2.status = StatusOK ∧
    (models.DeleteProduct aliceDB 7).2 = none ∧
    (Handler.DeleteProduct aliceDB "7").2.status = StatusOK := by
  decide

/-- C6 as amended: on a store that reports no error, deleting an id that
identifies no row is total and succeeds without changing any row: the model
function returns a nil error and leaves the table as it was, and the handler
answers 200 with an empty body. -/
theorem Delete_missing_id (db : DB) (idStr : String) (id : Int)
    (hf : db.fault = none) (ha : Atoi idStr = some id) :
    ((∀ u ∈ db.users, u.UserID ≠ id) →
      (models.DeleteUser db id).2 = none ∧ (models.DeleteUser db id).1.users = db.users ∧
      (Handler.DeleteUser db idStr).2 = { status := StatusOK, headers := [], body := "" } ∧
      (Handler.DeleteUser db idStr).1.users = db.users) ∧
    ((∀ p ∈ db.products, p.ProductID ≠ id) →
      (models.DeleteProduct db id).2 = none ∧
      (models.DeleteProduct db id).1.products = db.products ∧
      (Handler.DeleteProduct db idStr).2 = { status := StatusOK, headers := [], body := "" } ∧
      (Handler.DeleteProduct db idStr).1.products = db.products) := by
  constructor
  · intro hno
    have hfilter : db.users.filter (fun u => ¬ u.UserID = id) = db.users := by
      rw [List.filter_eq_self]
      intro u hu
      simpa using hno u hu
    simpa [Handler.DeleteUser, models.DeleteUser, ha, hf, hfilter, DB.tick] using hno
  · intro hno
    have hfilter : db.products.filter (fun p => ¬ p.ProductID = id) = db.products := by
      rw [List.filter_eq_self]
      intro p hp
      simpa using hno p hp
    simpa [Handler.DeleteProduct, models.DeleteProduct, ha, hf, hfilter, DB.tick] using hno

/-- C6 as amended, at `aliceDB` and the id 7. -/
theorem Delete_missing_id_witness :
    (models.DeleteUser aliceDB 7).2 = none ∧ (models.DeleteProduct aliceDB 7).2 = none :=
  have t := Delete_missing_id aliceDB "7" 7 (by decide) (by decide)
  ⟨(t.1 (by decide)).1, (t.2 (by decide)).1⟩

/-! ## Claims on products -/

/-- C7: on a store whose product ids are all below the auto-increment counter,
if `CreateProduct` succeeds and returns the id `i`, then `GetProductByID(i)` on
the resulting store succeeds with a product whose id is `i`, whose name,
description, price and stock are the inputs, and whose creation time is the
store clock, whatever creation time the input carried. -/
theorem CreateProduct_GetProductByID (db : DB) (product : Product) (db1 : DB) (i : Int)
    (hfresh : ∀ p ∈ db.products, p.ProductID < db.nextProductID)
    (hc : models.CreateProduct db product = (db1, (i, none))) :
    ∃ got, (models.GetProductByID db1 i).2 = (some got, none) ∧
      got.ProductID = i ∧ got.ProductName = product.ProductName ∧
      got.Description = product.Description ∧ got.Price = product.Price ∧
      got.StockQuantity = product.StockQuantity ∧ got.CreatedAt = db.now := by
  unfold models.CreateProduct at hc
  cases hf : db.fault with
  | some e => simp [hf] at hc
  | none =>
    simp only [hf, Prod.mk.injEq] at hc
    obtain ⟨rfl, rfl, -⟩ := hc
    have hnone : db.products.find? (fun p => p.ProductID = db.nextProductID) = none := by
      rw [List.find?_eq_none]
      intro p hp
      have := hfresh p hp
      simp only [decide_eq_true_eq]
      omega
    refine ⟨{ ProductID := db.nextProductID, ProductName := product.ProductName,
              Description := product.Description, Price := product.Price,
              StockQuantity := product.StockQuantity, CreatedAt := db.now }, ?_, rfl, rfl, rfl,
            rfl, rfl, rfl⟩
    simp [models.GetProductByID, DB.tick, hf, List.find?_append, hnone]

/-- C7 at the specification's example: `Widget`, 9.99, stock 10, created on the
empty store, is read back under the returned id 1 with the store's clock as its
creation time. -/
theorem CreateProduct_GetProductByID_witness :
    ∃ got, (models.GetProductByID (models.CreateProduct emptyDB widget).1 1).2 = (some got, none) ∧
      got.ProductID = 1 ∧ got.ProductName = "Widget" ∧
      got.Description = "" ∧ got.Price = ⟨0x4023FAE147AE147B⟩ ∧
      got.StockQuantity = 10 ∧ got.CreatedAt = ⟨"2024-01-15T10:00:00Z"⟩ :=
  CreateProduct_GetProductByID emptyDB widget _ 1 (by decide) rfl

/-! ## Claims on the `{id}` path variable -/

/-- The digit loop succeeds only on digits. -/
theorem digitsValue_some (ds : List Char) (n m : Nat) (h : digitsValue ds n = some m) :
    ∀ c ∈ ds, 48 ≤ c.toNat ∧ c.toNat ≤ 57 := by
  induction ds generalizing n with
  | nil => simp
  | cons d ds ih =>
    unfold digitsValue at h
    by_cases hd : 48 ≤ d.toNat ∧ d.toNat ≤ 57
    · rw [if_pos hd] at h
      intro c hc
      rcases List.mem_cons.1 hc with rfl | hc
      · exact hd
      · exact ih _ h c hc
    · rw [if_neg hd] at h
      cases h

/-- A character whose code is between 48 and 57 is one of the ten digits. -/
theorem digit_of_code (c : Char) (h : 48 ≤ c.toNat ∧ c.toNat ≤ 57) :
    c ∈ "0123456789".data := by
  have hc : c = Char.ofNat c.toNat := (Char.ofNat_toNat c).symm
  obtain ⟨h1, h2⟩ := h
  generalize c.toNat = k at hc h1 h2
  subst hc
  interval_cases k <;> decide

/-- What `Atoi` accepts is a decimal integer. -/
theorem Atoi_some_isDecimalInteger (s : String) (v : Int) (h : Atoi s = some v) :
    isDecimalInteger s = true := by
  unfold Atoi at h
  unfold isDecimalInteger
  cases hs : s.data with
  | nil => simp [hs] at h
  | cons c cs =>
    simp only [hs] at h ⊢
    by_cases hsign : c = '-' ∨ c = '+'
    · have hsign' : c = '+' ∨ c = '-' := hsign.symm
      simp only [if_pos hsign, if_pos hsign'] at h ⊢
      by_cases hcs : cs = []
      · simp [hcs] at h
      · rw [if_neg hcs] at h
        cases hd : digitsValue cs 0 with
        | none => simp [hd] at h
        | some n =>
          have := digitsValue_some cs 0 n hd
          simp only [Bool.and_eq_true, Bool.not_eq_true', List.isEmpty_eq_false,
            List.all_eq_true, decide_eq_true_eq]
          exact ⟨hcs, fun d hdm => digit_of_code d (this d hdm)⟩
    · have hsign' : ¬ (c = '+' ∨ c = '-') := fun hh => hsign hh.symm
      simp only [if_neg hsign, if_neg hsign'] at h ⊢
      rw [if_neg (List.cons_ne_nil c cs)] at h
      cases hd : digitsValue (c :: cs) 0 with
      | none => simp [hd] at h
      | some n =>
        have := digitsValue_some (c :: cs) 0 n hd
        simp only [Bool.and_eq_true, Bool.not_eq_true', List.isEmpty_eq_false,
          List.all_eq_true, decide_eq_true_eq]
        exact ⟨List.cons_ne_nil c cs, fun d hdm => digit_of_code d (this d hdm)⟩

/-- `Atoi` fails on what is not a decimal integer. -/
theorem Atoi_none_of_not_decimal (s : String) (h : isDecimalInteger s = false) :
    Atoi s = none := by
  cases ha : Atoi s with
  | none => rfl
  | some v =>
    have := Atoi_some_isDecimalInteger s v ha
    rw [h] at this
    cases this

/-- The parser on a few inputs: signs, the 64-bit range, and what it refuses. -/
theorem Atoi_examples :
    Atoi "42" = some 42 ∧ Atoi "-7" = some (-7) ∧ Atoi "+7" = some 7 ∧
    Atoi "9223372036854775807" = some 9223372036854775807 ∧
    Atoi "9223372036854775808" = none ∧ Atoi "-9223372036854775808" = some (-9223372036854775808) ∧
    Atoi "" = none ∧ Atoi "-" = none ∧ Atoi "4 2" = none ∧ Atoi "0x1f" = none ∧
    isDecimalInteger "42" = true ∧ isDecimalInteger "-7" = true ∧
    isDecimalInteger "" = false ∧ isDecimalInteger "+" = false := by
  decide

/-- C8: each of the six handlers that take an `{id}` path variable answers 400
when the id is not a decimal integer, and sends nothing to the store: the store
it returns is the one it was given, with the same statement count. For
`UpdateUser` and `UpdateProduct` this holds for every outcome of decoding the
body, failed or not. -/
theorem invalid_id_is_bad_request (lib : Lib) (db : DB) (id : String)
    (bodyU : Option User) (bodyP : Option Product)
    (hid : isDecimalInteger id = false) :
    rejectedUntouched db (Handler.GetUserByID db id) ∧
    rejectedUntouched db (Handler.UpdateUser db id bodyU) ∧
    rejectedUntouched db (Handler.DeleteUser db id) ∧
    rejectedUntouched db (Handler.GetProductByID lib db id) ∧
    rejectedUntouched db (Handler.UpdateProduct db id bodyP) ∧
    rejectedUntouched db (Handler.DeleteProduct db id) := by
  have ha := Atoi_none_of_not_decimal id hid
  simp [rejectedUntouched, Handler.GetUserByID, Handler.UpdateUser, Handler.DeleteUser,
    Handler.GetProductByID, Handler.UpdateProduct, Handler.DeleteProduct, ha, httpError]

/-- C8 at the id `12a`, with a well-formed body for both update handlers. -/
theorem invalid_id_is_bad_request_witness :
    isDecimalInteger "12a" = false ∧
    rejectedUntouched aliceDB (Handler.UpdateUser aliceDB "12a" (some ⟨0, "eve", "", "", ⟨""⟩⟩)) ∧
    rejectedUntouched aliceDB (Handler.DeleteUser aliceDB "12a") :=
  have t := invalid_id_is_bad_request sampleLib aliceDB "12a" (some ⟨0, "eve", "", "", ⟨""⟩⟩)
    (some widget) (by decide)
  ⟨by decide, t.2.1, t.2.2.1⟩

/-! ## Claims on update -/

/-- Renaming by `List.map` satisfies the frame `UsersRenamed`. -/
theorem UsersRenamed_map (i : Int) (n : String) (rows : List User) :
    UsersRenamed i n rows
      (rows.map (fun u => if u.UserID = i then { u with Username := n } else u)) := by
  unfold UsersRenamed
  induction rows with
  | nil => exact List.Forall₂.nil
  | cons u rows ih =>
    refine List.Forall₂.cons ?_ ih
    by_cases hu : u.UserID = i
    · simp [hu]
    · simp [hu]

/-- Renaming by `List.map` satisfies the frame `ProductsRenamed`. -/
theorem ProductsRenamed_map (i : Int) (n : String) (rows : List Product) :
    ProductsRenamed i n rows
      (rows.map (fun p => if p.ProductID = i then { p with ProductName := n } else p)) := by
  unfold ProductsRenamed
  induction rows with
  | nil => exact List.Forall₂.nil
  | cons p rows ih =>
    refine List.Forall₂.cons ?_ ih
    by_cases hp : p.ProductID = i
    · simp [hp]
    · simp [hp]

/-- A 200 from `Handler.UpdateUser` comes from a successful `models.UpdateUser`. -/
theorem Handler_UpdateUser_ok (db : DB) (idStr : String) (u : User) (db1 : DB)
    (resp : Response) (h : Handler.UpdateUser db idStr (some u) = (db1, resp))
    (hs : resp.status = StatusOK) :
    ∃ i, Atoi idStr = some i ∧ models.UpdateUser db i u.Username = (db1, none) := by
  unfold Handler.UpdateUser at h
  cases ha : Atoi idStr with
  | none =>
    simp only [ha, Prod.mk.injEq] at h
    obtain ⟨-, rfl⟩ := h
    simp [httpError, StatusBadRequest, StatusOK] at hs
  | some i =>
    simp only [ha] at h
    rcases hm : models.UpdateUser db i u.Username with ⟨db2, e⟩
    rw [hm] at h
    cases e with
    | some err =>
      simp only [Prod.mk.injEq] at h
      obtain ⟨-, rfl⟩ := h
      simp [httpError, StatusInternalServerError, StatusOK] at hs
    | none =>
      simp only [Prod.mk.injEq] at h
      obtain ⟨rfl, -⟩ := h
      exact ⟨i, rfl, hm⟩

/-- A 200 from `Handler.UpdateProduct` comes from a successful
`models.UpdateProduct`. -/
theorem Handler_UpdateProduct_ok (db : DB) (idStr : String) (p : Product) (db1 : DB)
    (resp : Response) (h : Handler.UpdateProduct db idStr (some p) = (db1, resp))
    (hs : resp.status = StatusOK) :
    ∃ i, Atoi idStr = some i ∧ models.UpdateProduct db i p.ProductName = (db1, none) := by
  unfold Handler.UpdateProduct at h
  cases ha : Atoi idStr with
  | none =>
    simp only [ha, Prod.mk.injEq] at h
    obtain ⟨-, rfl⟩ := h
    simp [httpError, StatusBadRequest, StatusOK] at hs
  | some i =>
    simp only [ha] at h
    rcases hm : models.UpdateProduct db i p.ProductName with ⟨db2, e⟩
    rw [hm] at h
    cases e with
    | some err =>
      simp only [Prod.mk.injEq] at h
      obtain ⟨-, rfl⟩ := h
      simp [httpError, StatusInternalServerError, StatusOK] at hs
    | none =>
      simp only [Prod.mk.injEq] at h
      obtain ⟨rfl, -⟩ := h
      exact ⟨i, rfl, hm⟩

/-- C9: a successful update changes only the name of the row with the given id.
On a store that reports no error, `models.UpdateUser` and `models.UpdateProduct`
succeed. Whenever `models.UpdateUser db i n` returns a nil error with the store
`dbU`, the user rows of `dbU` are those of `db` in number and order, each with
its id, email, password hash and registration date, every row with id `i` named
`n` and every other row unchanged, and the products are untouched; any decoded
body whose name field is `n`, whatever its other fields, makes the handler answer
200 with that same store. Likewise for `models.UpdateProduct` and its handler.
Conversely a handler that answers 200 has run the model function on the parsed id
with the name field of the decoded body, with the same frame. -/
theorem Update_changes_only_name (db : DB) (iU iP : Int) (nU nP : String) :
    (db.fault = none →
      (models.UpdateUser db iU nU).2 = none ∧ (models.UpdateProduct db iP nP).2 = none) ∧
    (∀ dbU, models.UpdateUser db iU nU = (dbU, none) →
      UsersRenamed iU nU db.users dbU.users ∧ dbU.products = db.products ∧
      (∀ idStr u, Atoi idStr = some iU → u.Username = nU →
        Handler.UpdateUser db idStr (some u) =
          (dbU, { status := StatusOK, headers := [], body := "" }))) ∧
    (∀ dbP, models.UpdateProduct db iP nP = (dbP, none) →
      ProductsRenamed iP nP db.products dbP.products ∧ dbP.users = db.users ∧
      (∀ idStr p, Atoi idStr = some iP → p.ProductName = nP →
        Handler.UpdateProduct db idStr (some p) =
          (dbP, { status := StatusOK, headers := [], body := "" }))) ∧
    (∀ idStr u db1 resp, Handler.UpdateUser db idStr (some u) = (db1, resp) →
      resp.status = StatusOK →
      ∃ i, Atoi idStr = some i ∧ models.UpdateUser db i u.Username = (db1, none) ∧
        UsersRenamed i u.Username db.users db1.users ∧ db1.products = db.products) ∧
    (∀ idStr p db1 resp, Handler.UpdateProduct db idStr (some p) = (db1, resp) →
      resp.status = StatusOK →
      ∃ i, Atoi idStr = some i ∧ models.UpdateProduct db i p.ProductName = (db1, none) ∧
        ProductsRenamed i p.ProductName db.products db1.products ∧ db1.users = db.users) := by
  have frameU : ∀ i n db1, models.UpdateUser db i n = (db1, none) →
      UsersRenamed i n db.users db1.users ∧ db1.products = db.products := by
    intro i n db1 h
    unfold models.UpdateUser at h
    cases hf : db.fault with
    | some e => simp [hf] at h
    | none =>
      simp only [hf, Prod.mk.injEq, and_true] at h
      subst h
      exact ⟨UsersRenamed_map i n db.users, rfl⟩
  have frameP : ∀ i n db1, models.UpdateProduct db i n = (db1, none) →
      ProductsRenamed i n db.products db1.products ∧ db1.users = db.users := by
    intro i n db1 h
    unfold models.UpdateProduct at h
    cases hf : db.fault with
    | some e => simp [hf] at h
    | none =>
      simp only [hf, Prod.mk.injEq, and_true] at h
      subst h
      exact ⟨ProductsRenamed_map i n db.products, rfl⟩
  refine ⟨fun hf => ?_, fun dbU hU => ?_, fun dbP hP => ?_, ?_, ?_⟩
  · simp [models.UpdateUser, models.UpdateProduct, hf]
  · refine ⟨(frameU iU nU dbU hU).1, (frameU iU nU dbU hU).2, fun idStr u ha hn => ?_⟩
    unfold Handler.UpdateUser
    simp only [ha, hn, hU]
  · refine ⟨(frameP iP nP dbP hP).1, (frameP iP nP dbP hP).2, fun idStr p ha hn => ?_⟩
    unfold Handler.UpdateProduct
    simp only [ha, hn, hP]
  · intro idStr u db1 resp h hs
    obtain ⟨i, ha, hm⟩ := Handler_UpdateUser_ok db idStr u db1 resp h hs
    exact ⟨i, ha, hm, frameU i u.Username db1 hm⟩
  · intro idStr p db1 resp h hs
    obtain ⟨i, ha, hm⟩ := Handler_UpdateProduct_ok db idStr p db1 resp h hs
    exact ⟨i, ha, hm, frameP i p.ProductName db1 hm⟩

/-- C9 at `shopDB`, which holds two users and two products: renaming user 2 to
`caroline` and product 2 to `Gizmo` both succeed; each result satisfies the frame
and is, row for row, the old table with only that name replaced; and the product
handler, given the id `2` and a body that also carries another description,
price, stock and date, answers 200 with the same store. -/
theorem Update_changes_only_name_witness :
    (models.UpdateUser shopDB 2 "caroline").2 = none ∧
    (models.UpdateProduct shopDB 2 "Gizmo").2 = none ∧
    UsersRenamed 2 "caroline" shopDB.users (models.UpdateUser shopDB 2 "caroline").1.users ∧
    ProductsRenamed 2 "Gizmo" shopDB.products
      (models.UpdateProduct shopDB 2 "Gizmo").1.products ∧
    (models.UpdateUser shopDB 2 "caroline").1.users =
      [{ UserID := 1, Username := "alice", Email := "alice@example.com",
         PasswordHash := secretHash, RegistrationDate := ⟨"2024-01-01T00:00:00Z"⟩ },
       { UserID := 2, Username := "caroline", Email := "carol@example.com",
         PasswordHash := "corrupt", RegistrationDate := ⟨"2024-01-02T00:00:00Z"⟩ }] ∧
    (models.UpdateProduct shopDB 2 "Gizmo").1.products =
      [{ ProductID := 1, ProductName := "Widget", Description := "A widget",
         Price := ⟨0x4023FAE147AE147B⟩, StockQuantity := 10,
         CreatedAt := ⟨"2024-01-03T00:00:00Z"⟩ },
       { ProductID := 2, ProductName := "Gizmo", Description := "A gadget",
         Price := ⟨0⟩, StockQuantity := 3, CreatedAt := ⟨"2024-01-04T00:00:00Z"⟩ }] ∧
    Handler.UpdateProduct shopDB "2"
        (some { ProductID := 9, ProductName := "Gizmo", Description := "changed",
                Price := ⟨1⟩, StockQuantity := 99, CreatedAt := ⟨"1999-12-31T23:59:59Z"⟩ }) =
      ((models.UpdateProduct shopDB 2 "Gizmo").1,
        { status := StatusOK, headers := [], body := "" }) :=
  have t := Update_changes_only_name shopDB 2 2 "caroline" "Gizmo"
  have ok := t.1 rfl
  have fu := t.2.1 _ rfl
  have fp := t.2.2.1 _ rfl
  ⟨ok.1, ok.2, fu.1, fp.1, by decide, by decide,
    fp.2.2 "2" _ (by decide) rfl⟩

/-! ## Claims on what the read handlers return -/

theorem containsText_trans (a b c : String) (h1 : containsText b a) (h2 : containsText c b) :
    containsText c a :=
  List.IsInfix.trans h1 h2

/-- The JSON object of a user contains the member `password_hash` with the
stored hash as its value. -/
theorem encodeUser_contains_hash (u : User) :
    containsText (encodeUser u) ("\"password_hash\":" ++ jsonString u.PasswordHash) := by
  refine ⟨("\x7b\"user_id\":" ++ toString u.UserID ++ ",\"username\":" ++
      jsonString u.Username ++ ",\"email\":" ++ jsonString u.Email ++ ",").data,
    (",\"registration_date\":\"" ++ u.RegistrationDate.rfc3339 ++ "\"\x7d").data, ?_⟩
  simp [encodeUser, String.data_append]

/-- The encoder leaves a string of unescaped characters as it is. -/
theorem flatMap_escapeChar_id (cs : List Char) (h : cs.all (fun c => escapeChar c == [c]) = true) :
    cs.flatMap escapeChar = cs := by
  induction cs with
  | nil => rfl
  | cons c cs ih =>
    simp only [List.all_cons, Bool.and_eq_true, beq_iff_eq] at h
    rw [List.flatMap_cons, h.1, ih h.2]
    rfl

/-- A string that needs no escaping occurs verbatim in its JSON text. -/
theorem jsonString_contains (s : String) (h : needsNoEscape s = true) :
    containsText (jsonString s) s := by
  refine ⟨"\"".data, "\"".data, ?_⟩
  simp [jsonString, String.data_append, flatMap_escapeChar_id s.data h]

/-- The accumulator and every remaining item occur in the joined text. -/
theorem intercalate_go_contains (sep : String) (items : List String) (acc : String) :
    containsText (String.intercalate.go acc sep items) acc ∧
    ∀ x ∈ items, containsText (String.intercalate.go acc sep items) x := by
  induction items generalizing acc with
  | nil => exact ⟨List.infix_refl _, fun x hx => by cases hx⟩
  | cons y ys ih =>
    have hstep := ih (acc ++ sep ++ y)
    have hacc : containsText (acc ++ sep ++ y) acc :=
      ⟨[], (sep ++ y).data, by simp [String.data_append]⟩
    have hy : containsText (acc ++ sep ++ y) y :=
      ⟨(acc ++ sep).data, [], by simp [String.data_append]⟩
    refine ⟨containsText_trans _ _ _ hacc hstep.1, fun x hx => ?_⟩
    rcases List.mem_cons.1 hx with rfl | hx
    · exact containsText_trans _ _ _ hy hstep.1
    · exact hstep.2 x hx

/-- Every item occurs in the JSON array text. -/
theorem encodeArray_contains (items : List String) (x : String) (hx : x ∈ items) :
    containsText (encodeArray items) x := by
  unfold encodeArray
  have hne : items ≠ [] := List.ne_nil_of_mem hx
  rw [if_neg hne]
  have hin : containsText (",".intercalate items) x := by
    cases items with
    | nil => cases hx
    | cons a as =>
      have hgo := intercalate_go_contains "," as a
      rcases List.mem_cons.1 hx with rfl | hx
      · exact hgo.1
      · exact hgo.2 x hx
  exact containsText_trans _ _ _ hin ⟨"[".data, "]".data, by simp [String.data_append]⟩

/-- C10, refuted as stated: on `aliceDB` the stored hash of `alice` is
`secretHash`, and the bodies that `Handler.GetUserByID` (for the id 1) and
`Handler.GetUsers` write both contain that hash, as the value of the member
`password_hash`. -/
theorem read_handlers_reveal_hash :
    (∀ u ∈ aliceDB.users, u.PasswordHash = secretHash) ∧
    (Handler.GetUserByID aliceDB "1").2.body =
      "\x7b\"user_id\":1,\"username\":\"alice\",\"email\":\"alice@example.com\"," ++
      "\"password_hash\":\"" ++ secretHash ++
      "\",\"registration_date\":\"2024-01-01T00:00:00Z\"\x7d\n" ∧
    containsText (Handler.GetUserByID aliceDB "1").2.body secretHash ∧
    containsText (Handler.GetUsers aliceDB).2.body secretHash :=
  ⟨by decide, rfl,
    ⟨("\x7b\"user_id\":1,\"username\":\"alice\",\"email\":\"alice@example.com\"," ++
        "\"password_hash\":\"").data,
      "\",\"registration_date\":\"2024-01-01T00:00:00Z\"\x7d\n".data, rfl⟩,
    ⟨("[\x7b\"user_id\":1,\"username\":\"alice\",\"email\":\"alice@example.com\"," ++
        "\"password_hash\":\"").data,
      "\",\"registration_date\":\"2024-01-01T00:00:00Z\"\x7d]\n".data, rfl⟩⟩

/-- C10 as amended: on a store that reports no error, the body `GetUserByID`
writes for an id with a row contains the member `password_hash` with the JSON
text of that row's stored hash, and the body `GetUsers` writes contains it for
every user; a hash made of characters that JSON leaves unescaped, as every bcrypt
hash is, occurs verbatim in those bodies. Both responses have status 200. -/
theorem GetUser_body_contains_hash (db : DB) (idStr : String) (i : Int) (u : User)
    (hf : db.fault = none) (ha : Atoi idStr = some i)
    (hfind : db.users.find? (fun v => v.UserID = i) = some u) :
    (Handler.GetUserByID db idStr).2.status = StatusOK ∧
    containsText (Handler.GetUserByID db idStr).2.body
      ("\"password_hash\":" ++ jsonString u.PasswordHash) ∧
    (needsNoEscape u.PasswordHash = true →
      containsText (Handler.GetUserByID db idStr).2.body u.PasswordHash) ∧
    (Handler.GetUsers db).2.status = StatusOK ∧
    (∀ v ∈ db.users,
      containsText (Handler.GetUsers db).2.body
        ("\"password_hash\":" ++ jsonString v.PasswordHash) ∧
      (needsNoEscape v.PasswordHash = true →
        containsText (Handler.GetUsers db).2.body v.PasswordHash)) := by
  have hjs : ∀ v : User, containsText (encodeUser v) (jsonString v.PasswordHash) := fun v =>
    containsText_trans _ _ _
      ⟨"\"password_hash\":".data, [], by simp [String.data_append]⟩
      (encodeUser_contains_hash v)
  have hline : ∀ t : String, containsText (t ++ "\n") t := fun t =>
    ⟨[], "\n".data, by simp [String.data_append]⟩
  have hone : (Handler.GetUserByID db idStr).2 =
      { status := StatusOK, headers := [], body := encodeUser u ++ "\n" } := by
    simp [Handler.GetUserByID, models.GetUserByID, ha, hf, hfind, encodeResponse]
  have hall : (Handler.GetUsers db).2 =
      { status := StatusOK, headers := [],
        body := encodeArray (db.users.map encodeUser) ++ "\n" } := by
    simp [Handler.GetUsers, models.GetUsers, hf, encodeResponse]
  have hmem : ∀ v ∈ db.users,
      containsText (encodeArray (db.users.map encodeUser) ++ "\n") (encodeUser v) := fun v hv =>
    containsText_trans _ _ _ (encodeArray_contains _ _ (List.mem_map_of_mem encodeUser hv))
      (hline _)
  rw [hone, hall]
  refine ⟨rfl, ?_, ?_, rfl, ?_⟩
  · exact containsText_trans _ _ _ (encodeUser_contains_hash u) (hline _)
  · intro hn
    exact containsText_trans _ _ _ (jsonString_contains _ hn)
      (containsText_trans _ _ _ (hjs u) (hline _))
  · intro v hv
    refine ⟨containsText_trans _ _ _ (encodeUser_contains_hash v) (hmem v hv), fun hn => ?_⟩
    exact containsText_trans _ _ _ (jsonString_contains _ hn)
      (containsText_trans _ _ _ (hjs v) (hmem v hv))

/-- C10 as amended, at `aliceDB` and the id 1: `secretHash` needs no escaping
and occurs in the body of `GetUserByID`. -/
theorem GetUser_body_contains_hash_witness :
    needsNoEscape secretHash = true ∧
    (Handler.GetUserByID aliceDB "1").2.status = StatusOK ∧
    containsText (Handler.GetUserByID aliceDB "1").2.body secretHash :=
  have t := GetUser_body_contains_hash aliceDB "1" 1
    { UserID := 1, Username := "alice", Email := "alice@example.com",
      PasswordHash := secretHash, RegistrationDate := ⟨"2024-01-01T00:00:00Z"⟩ }
    (by decide) (by decide) (by decide)
  ⟨by decide, t.1, t.2.2.1 (by decide)⟩

/-! ## Claims on fetching an id without a row -/

/-- The lookup of `GetUserByID` finds nothing when no row has the id. -/
theorem find_user_none (rows : List User) (id : Int) (h : ∀ u ∈ rows, u.UserID ≠ id) :
    rows.find? (fun u => u.UserID = id) = none := by
  rw [List.find?_eq_none]
  intro u hu
  simpa using h u hu

/-- The lookup of `GetProductByID` finds nothing when no row has the id. -/
theorem find_product_none (rows : List Product) (id : Int)
    (h : ∀ p ∈ rows, p.ProductID ≠ id) :
    rows.find? (fun p => p.ProductID = id) = none := by
  rw [List.find?_eq_none]
  intro p hp
  simpa using h p hp

/-- C11: a fetch by an id without a row is treated like a store error. For every
store and every numeric id: when no user has the id, `models.GetUserByID` returns
`(nil, err)` with a non-nil `err` (`sql.ErrNoRows` when the store reports no
error of its own) and `Handler.GetUserByID` answers 500, not 404 and not 200;
likewise for products; and 500 is also the status both handlers give on any store
that answers the statement with an error. -/
theorem Get_missing_id_is_500 (lib : Lib) (db : DB) (idStr : String) (id : Int)
    (ha : Atoi idStr = some id) :
    ((∀ u ∈ db.users, u.UserID ≠ id) →
      (models.GetUserByID db id).2.1 = none ∧ (models.GetUserByID db id).2.2 ≠ none ∧
      (db.fault = none → (models.GetUserByID db id).2 = (none, some .ErrNoRows)) ∧
      (Handler.GetUserByID db idStr).2.status = StatusInternalServerError ∧
      (Handler.GetUserByID db idStr).2.status ≠ StatusNotFound ∧
      (Handler.GetUserByID db idStr).2.status ≠ StatusOK) ∧
    ((∀ p ∈ db.products, p.ProductID ≠ id) →
      (models.GetProductByID db id).2.1 = none ∧ (models.GetProductByID db id).2.2 ≠ none ∧
      (db.fault = none → (models.GetProductByID db id).2 = (none, some .ErrNoRows)) ∧
      (Handler.GetProductByID lib db idStr).2.status = StatusInternalServerError ∧
      (Handler.GetProductByID lib db idStr).2.status ≠ StatusNotFound ∧
      (Handler.GetProductByID lib db idStr).2.status ≠ StatusOK) ∧
    (∀ (failing : DB) (e : Error), failing.fault = some e →
      (models.GetUserByID failing id).2 = (none, some e) ∧
      (Handler.GetUserByID failing idStr).2.status = StatusInternalServerError ∧
      (models.GetProductByID failing id).2 = (none, some e) ∧
      (Handler.GetProductByID lib failing idStr).2.status = StatusInternalServerError) := by
  refine ⟨fun hno => ?_, fun hno => ?_, fun failing e hf => ?_⟩
  · have hfind := find_user_none db.users id hno
    cases hf : db.fault with
    | some e =>
      simp [Handler.GetUserByID, models.GetUserByID, ha, hf, httpError,
        StatusInternalServerError, StatusNotFound, StatusOK]
    | none =>
      simp [Handler.GetUserByID, models.GetUserByID, ha, hf, hfind, httpError,
        StatusInternalServerError, StatusNotFound, StatusOK]
  · have hfind := find_product_none db.products id hno
    cases hf : db.fault with
    | some e =>
      simp [Handler.GetProductByID, models.GetProductByID, ha, hf, httpError,
        StatusInternalServerError, StatusNotFound, StatusOK]
    | none =>
      simp [Handler.GetProductByID, models.GetProductByID, ha, hf, hfind, httpError,
        StatusInternalServerError, StatusNotFound, StatusOK]
  · simp [Handler.GetUserByID, models.GetUserByID, Handler.GetProductByID,
      models.GetProductByID, ha, hf, httpError]

/-- C11 at `aliceDB` and the id 7, which no user and no product has: both model
functions return `sql.ErrNoRows`, both handlers answer 500, and the user handler
answers 500 on the unreachable store `downDB` too. -/
theorem Get_missing_id_is_500_witness :
    Atoi "7" = some 7 ∧
    (models.GetUserByID aliceDB 7).2 = (none, some .ErrNoRows) ∧
    (Handler.GetUserByID aliceDB "7").2.status = StatusInternalServerError ∧
    (models.GetProductByID aliceDB 7).2 = (none, some .ErrNoRows) ∧
    (Handler.GetProductByID sampleLib aliceDB "7").2.status = StatusInternalServerError ∧
    (Handler.GetUserByID downDB "7").2.status = StatusInternalServerError :=
  have t := Get_missing_id_is_500 sampleLib aliceDB "7" 7 (by decide)
  have tu := t.1 (by decide)
  have tp := t.2.1 (by decide)
  ⟨by decide, tu.2.2.1 (by decide), tu.2.2.2.1, tp.2.2.1 (by decide), tp.2.2.2.1,
    (t.2.2 downDB _ rfl).2.1⟩

end UasPemplat
